import Mathlib

/-!
# Verification of the weather-station telemetry protocol

Shallow embedding of the sender (`src/code/weather_station/weather_station.ino`)
and receiver (`src/code/receive/receive.ino`) of the `fruenger/weather_station`
repository, together with theorems settling the specification claims about
sequencing, loss detection, resync, debouncing, transmission bookkeeping,
record encoding and byte-stream framing.

Machine integers are modelled as `Nat`/`Int` with explicit reduction modulo
`2^16` (for `uint16_t`/`int16_t`) and `2^32` (for `unsigned long`).
Floating-point sensor readings are modelled as exact rationals; the C cast
`(int16_t)x` on a float is modelled as truncation toward zero followed by
reduction into the signed 16-bit range, and on an unsigned integer as
reduction into the signed 16-bit range.
-/

namespace WeatherStation

/-- Reduction of a natural number into `uint16_t` range (value mod 2^16). -/
def u16 (n : Nat) : Nat := n % 65536

/-- `uint32` subtraction `a - b` as performed on `unsigned long` values
(wrap-around modulo 2^32), as in `millis() - lastPacketMs`. -/
def sub32 (a b : Nat) : Nat :=
  (a % 4294967296 + (4294967296 - b % 4294967296)) % 4294967296

/-- Reinterpretation of an integer as a signed 16-bit value
(the effect of a C cast to `int16_t`, reduction modulo 2^16 into
`[-32768, 32767]`). -/
def wrap16 (n : Int) : Int :=
  if 32768 ≤ n % 65536 then n % 65536 - 65536 else n % 65536

/-- Truncation of a rational toward zero: the effect of a C float-to-integer
conversion on an in-range value. -/
def truncQ (q : ℚ) : Int := if 0 ≤ q then ⌊q⌋ else ⌈q⌉

/-- The unsigned 16-bit pattern of a signed 16-bit value: the effect of the
cast `(uint16_t)results[7]` on the receiver. -/
def int16ToU16 (v : Int) : Nat := (v % 65536).toNat

/-! ## Receiver state and sequence validation (`src/code/receive/receive.ino`) -/

/-- Receiver-global mutable state: `isSynced`, `lastPacketNumber`,
`lastPacketMs`, `receivedPackets`, `lostPackets` of `receive.ino`.
`lastPacketNumber`, `receivedPackets`, `lostPackets` are `uint16_t`,
`lastPacketMs` is `unsigned long`. -/
structure RxState where
  isSynced : Bool
  lastPacketNumber : Nat
  lastPacketMs : Nat
  receivedPackets : Nat
  lostPackets : Nat
deriving Repr, DecidableEq

/-- `isNextModulo` of `receive.ino` (line 57): modulo-65536 increment check
`current == (uint16_t)(previous + 1)`. -/
def isNextModulo (current previous : Nat) : Bool :=
  decide (current = u16 (previous + 1))

/-- The sequence-tracking part of the receiver `loop` body for one arriving
record (`receive.ino` lines 73–98): resync on first arrival or idle gap
> 5000 ms, otherwise in-order advance, sender-restart adoption
(`current ≤ 5`), or loss accumulation `lostPackets += (uint16_t)(current -
(uint16_t)(lastPacketNumber + 1))`. -/
def processArrivalCore (s : RxState) (current nowMs : Nat) : RxState :=
  if s.isSynced = false ∨ sub32 nowMs s.lastPacketMs > 5000 then
    { s with isSynced := true, lastPacketNumber := current, lastPacketMs := nowMs }
  else
    if isNextModulo current s.lastPacketNumber = false then
      if current ≤ 5 then
        { s with lastPacketNumber := current, lastPacketMs := nowMs }
      else
        { s with
            lostPackets := u16 (s.lostPackets + u16 (current + 65536 - u16 (s.lastPacketNumber + 1))),
            lastPacketNumber := current,
            lastPacketMs := nowMs }
    else
      { s with lastPacketNumber := current, lastPacketMs := nowMs }

/-- Sequence tracking followed by the unconditional `receivedPackets++`
(`receive.ino` line 102). -/
def processArrival (s : RxState) (current nowMs : Nat) : RxState :=
  let s' := processArrivalCore s current nowMs
  { s' with receivedPackets := u16 (s'.receivedPackets + 1) }

/-- Little-endian byte pair of one `int16_t` value as stored in the
`results` array on the (little-endian AVR) target. -/
def int16Bytes (v : Int) : List Nat :=
  [int16ToU16 v % 256, int16ToU16 v / 256]

/-- The 32 raw bytes of a record: the bytes of its 16 `int16_t` fields in
index order (`byte *p = (byte*) results`, `receive.ino` lines 108–111). -/
def recordBytes : List Int → List Nat
  | [] => []
  | v :: rest => int16Bytes v ++ recordBytes rest

/-- The binary frame written to the serial stream for one record:
`'D'` (68), the 32 raw record bytes, `'E'` (69)
(`receive.ino` lines 105–114). -/
def frameOutput (record : List Int) : List Nat :=
  68 :: (recordBytes record ++ [69])

/-- The statistics condition of the receiver `loop`
(`receive.ino` line 139): `receivedPackets % 100 == 0 && receivedPackets > 0`,
evaluated on every loop iteration after the (possibly empty)
`radio.available()` block. -/
def statsDue (s : RxState) : Bool :=
  decide (s.receivedPackets % 100 = 0 ∧ 0 < s.receivedPackets)

/-- One full iteration of the receiver `loop`: an optional arrival
(`radio.available()`), producing the new state, the binary frame emitted for
the arrival (empty when none), and whether the loss-rate statistics line is
emitted on this iteration. -/
def receiveTick (s : RxState) (arrival : Option (List Int × Nat)) :
    RxState × List Nat × Bool :=
  match arrival with
  | none => (s, [], statsDue s)
  | some (record, nowMs) =>
      let s' := processArrival s (int16ToU16 (record.getD 7 0)) nowMs
      (s', frameOutput record, statsDue s')

/-! ## Sender state: debounced rain accumulator and transmission manager
(`src/code/weather_station/weather_station.ino`) -/

/-- Sender-global mutable state touched by the rain reed sensor and the
transmission manager: `firstLoop`, `lastState`, `lastChanged`,
`accumulated_rain_tips`, `rain_data_pending`, `packetNumber`,
`successfulTransmissions`, `failedTransmissions` of `weather_station.ino`.
The counters are `uint16_t`; `lastChanged` is `unsigned long`. -/
structure SenderState where
  firstLoop : Bool
  lastState : Bool
  lastChanged : Nat
  accumulated_rain_tips : Nat
  rain_data_pending : Bool
  packetNumber : Nat
  successfulTransmissions : Nat
  failedTransmissions : Nat
deriving Repr, DecidableEq

/-- The first-loop initialisation at the top of `readRainReedData`
(`weather_station.ino` lines 368–372): on the very first tick, `lastState`
is seeded with the sampled level and no edge is detected. -/
def debounceInit (s : SenderState) (level : Bool) : SenderState :=
  if s.firstLoop then { s with lastState := level, firstLoop := false } else s

/-- The accepted-edge body of `readRainReedData`: a LOW→HIGH transition counts
a rain tip and marks the rain data pending; any other transition only changes
state. -/
def debounceTip (s0 : SenderState) (level : Bool) : SenderState :=
  if level = true ∧ s0.lastState = false then
    { s0 with
        accumulated_rain_tips := u16 (s0.accumulated_rain_tips + 1),
        rain_data_pending := true }
  else s0

/-- `readRainReedData` of `weather_station.ino` (lines 366–393), restricted to
its state effect (the write of `results[5]` is modelled separately): first-loop
initialisation, change detection, 250 ms debounce, and tip counting on an
accepted LOW→HIGH edge; after an accepted change `lastState` and `lastChanged`
are updated. `level` is the sampled pin value (`HIGH = true`), `nowMs` the
value of `millis()` on this tick. Within the debounce window
(`millis() - lastChanged ≤ 250`) the state is returned unchanged. -/
def readRainReedData (s : SenderState) (level : Bool) (nowMs : Nat) : SenderState :=
  if level ≠ (debounceInit s level).lastState then
    if sub32 nowMs (debounceInit s level).lastChanged > 250 then
      { debounceTip (debounceInit s level) level with lastState := level, lastChanged := nowMs }
    else debounceInit s level
  else debounceInit s level

/-- `transmitData` of `weather_station.ino` (lines 423–470), restricted to its
state effect. `radioAvailable` is the `radio_available` flag; `sendOk` is the
result of `radio.write`. On success the success counter is bumped and the
rain accumulator cleared when `rain_data_pending`; on failure the failure
counter is bumped and the accumulator left alone; in both cases
`packetNumber` is incremented once. When the radio is unavailable nothing
happens. `clearRainIfPending` is the success-branch clearing of the rain-tip
accumulator (`weather_station.ino` lines 433–439). -/
def clearRainIfPending (s : SenderState) : SenderState :=
  if s.rain_data_pending then
    { s with accumulated_rain_tips := 0, rain_data_pending := false }
  else s

def transmitData (s : SenderState) (radioAvailable sendOk : Bool) : SenderState :=
  if radioAvailable then
    if sendOk then
      { clearRainIfPending
          { s with successfulTransmissions := u16 (s.successfulTransmissions + 1) } with
        packetNumber := u16 (s.packetNumber + 1) }
    else
      { s with
          failedTransmissions := u16 (s.failedTransmissions + 1),
          packetNumber := u16 (s.packetNumber + 1) }
  else s

/-- One sender measurement/transmission cycle as far as the rain accumulator
and transmission bookkeeping are concerned: the single `readRainReedData`
sample of the cycle, then `transmitData` with an available radio. The second
component is the value placed in `results[5]` for this cycle's record — the
tip count that this transmission attempt delivers. -/
def senderCycle (s : SenderState) (level : Bool) (nowMs : Nat) (sendOk : Bool) :
    SenderState × Nat :=
  let s1 := readRainReedData s level nowMs
  (transmitData s1 true sendOk, s1.accumulated_rain_tips)

/-! ## Scaled record encoder (`weather_station.ino`, `loop` and the
`read*Data` functions) -/

/-- One snapshot of raw sensor inputs and auxiliary counters feeding the
encoder: the availability flags, the float readings (as exact rationals),
and the integer counters, exactly the inputs of the `read*Data` functions
and of `loop` (lines 214–246). `lux_raw` is the `uint32_t` result of
`TSL2591_Read_Lux`; `rainAnalog` the 0–1023 `analogRead` result; the
counters are `uint16_t`. -/
structure Readings where
  time_stamp : ℚ
  bme_ok : Bool
  temp : ℚ
  pressure : ℚ
  humidity : ℚ
  mlx_ok : Bool
  sky_temp : ℚ
  box_temp : ℚ
  light_ok : Bool
  lux_raw : Nat
  ccs_ok : Bool
  co2 : Nat
  tvoc : Nat
  baseline : Nat
  rain_tips : Nat
  wind : Nat
  packetNumber : Nat
  isRaining : Bool
  rainAnalog : Nat

/-- The 16-field record built by one sender cycle
(`weather_station.ino` lines 214–246 and the `read*Data` functions):
 * field 0: `(int16_t)time_stamp` (float cast: truncate, wrap);
 * fields 1–3: BME280 temperature ×100, pressure ×10, humidity ×100,
   each `(int16_t)(x * scale)` when available, else 0;
 * field 4: `(int16_t)min(lux_raw, 65535UL)` when available, else 0;
 * field 5: `(int16_t)accumulated_rain_tips`;
 * field 6: `(int16_t)wind_revolutions_this_cycle`;
 * field 7: `(int16_t)packetNumber`;
 * fields 8–9: MLX90614 object/ambient temperature ×100 when available, else 0;
 * field 10: rain-detected flag 1/0;
 * field 11: analog rain reading;
 * fields 12–14: CO2, TVOC, baseline when the CCS811 has fresh data, else 0;
 * field 15: 0 (reserved). -/
def encodeRecord (r : Readings) : List Int :=
  [ wrap16 (truncQ r.time_stamp),
    if r.bme_ok then wrap16 (truncQ (r.temp * 100)) else 0,
    if r.bme_ok then wrap16 (truncQ (r.pressure * 10)) else 0,
    if r.bme_ok then wrap16 (truncQ (r.humidity * 100)) else 0,
    if r.light_ok then wrap16 (Int.ofNat (min r.lux_raw 65535)) else 0,
    wrap16 (Int.ofNat (u16 r.rain_tips)),
    wrap16 (Int.ofNat (u16 r.wind)),
    wrap16 (Int.ofNat (u16 r.packetNumber)),
    if r.mlx_ok then wrap16 (truncQ (r.sky_temp * 100)) else 0,
    if r.mlx_ok then wrap16 (truncQ (r.box_temp * 100)) else 0,
    if r.isRaining then 1 else 0,
    wrap16 (Int.ofNat r.rainAnalog),
    if r.ccs_ok then wrap16 (Int.ofNat (u16 r.co2)) else 0,
    if r.ccs_ok then wrap16 (Int.ofNat (u16 r.tvoc)) else 0,
    if r.ccs_ok then wrap16 (Int.ofNat (u16 r.baseline)) else 0,
    0 ]

/-- Clamping into the signed 16-bit range, as the specification's encode rule
prescribes (`clamped to [-32768, 32767]`). Stated from the spec's words, for
comparison with the code's `wrap16`-based behaviour. -/
def specClamp16 (n : Int) : Int := max (-32768) (min 32767 n)

/-- The specification's encode rule for one scaled field:
`round(value * scale)` clamped to `[-32768, 32767]`. Stated from the spec's
words, for comparison with the code's truncate-and-wrap behaviour. -/
def specEncodeField (value scale : ℚ) : Int := specClamp16 (round (value * scale))

/-- The specification's rule for the illuminance field: the lux value
`clamped to the maximum representable value` of a signed 16-bit field.
Stated from the spec's words, for comparison with the code's
`(int16_t)min(lux_raw, 65535UL)`. -/
def specEncodeLux (lux : Nat) : Int := min 32767 (Int.ofNat lux)

/-! ## Helper lemmas -/

-- The resync branch of the sequence validator.
theorem processArrivalCore_resync (s : RxState) (c n : Nat)
    (h : s.isSynced = false ∨ sub32 n s.lastPacketMs > 5000) :
    processArrivalCore s c n =
      { s with isSynced := true, lastPacketNumber := c, lastPacketMs := n } := by
  unfold processArrivalCore
  rw [if_pos h]

-- When synced with no idle gap, the resync condition is off.
theorem not_resync_cond (s : RxState) (n : Nat)
    (hs : s.isSynced = true) (hg : sub32 n s.lastPacketMs ≤ 5000) :
    ¬(s.isSynced = false ∨ sub32 n s.lastPacketMs > 5000) := by
  rintro (h | h)
  · rw [hs] at h; cases h
  · omega

-- The in-order branch of the sequence validator.
theorem processArrivalCore_inorder (s : RxState) (c n : Nat)
    (hs : s.isSynced = true) (hg : sub32 n s.lastPacketMs ≤ 5000)
    (hnext : c = u16 (s.lastPacketNumber + 1)) :
    processArrivalCore s c n = { s with lastPacketNumber := c, lastPacketMs := n } := by
  unfold processArrivalCore
  rw [if_neg (not_resync_cond s n hs hg), if_neg]
  simp [isNextModulo, hnext]

-- The sender-restart branch of the sequence validator.
theorem processArrivalCore_reset (s : RxState) (c n : Nat)
    (hs : s.isSynced = true) (hg : sub32 n s.lastPacketMs ≤ 5000)
    (hne : c ≠ u16 (s.lastPacketNumber + 1)) (h5 : c ≤ 5) :
    processArrivalCore s c n = { s with lastPacketNumber := c, lastPacketMs := n } := by
  unfold processArrivalCore
  rw [if_neg (not_resync_cond s n hs hg), if_pos, if_pos h5]
  simp [isNextModulo, hne]

-- The loss-counting branch of the sequence validator.
theorem processArrivalCore_loss (s : RxState) (c n : Nat)
    (hs : s.isSynced = true) (hg : sub32 n s.lastPacketMs ≤ 5000)
    (hne : c ≠ u16 (s.lastPacketNumber + 1)) (h5 : ¬c ≤ 5) :
    processArrivalCore s c n =
      { s with
          lostPackets := u16 (s.lostPackets + u16 (c + 65536 - u16 (s.lastPacketNumber + 1))),
          lastPacketNumber := c,
          lastPacketMs := n } := by
  unfold processArrivalCore
  rw [if_neg (not_resync_cond s n hs hg), if_pos, if_neg h5]
  simp [isNextModulo, hne]

-- The per-arrival wrapper only bumps `receivedPackets` on top of the core.
theorem processArrival_fields (s : RxState) (c n : Nat) :
    (processArrival s c n).isSynced = (processArrivalCore s c n).isSynced ∧
    (processArrival s c n).lastPacketNumber = (processArrivalCore s c n).lastPacketNumber ∧
    (processArrival s c n).lastPacketMs = (processArrivalCore s c n).lastPacketMs ∧
    (processArrival s c n).lostPackets = (processArrivalCore s c n).lostPackets ∧
    (processArrival s c n).receivedPackets = u16 ((processArrivalCore s c n).receivedPackets + 1) :=
  ⟨rfl, rfl, rfl, rfl, rfl⟩

-- No branch of the sequence validator touches `receivedPackets`.
theorem processArrivalCore_receivedPackets (s : RxState) (c n : Nat) :
    (processArrivalCore s c n).receivedPackets = s.receivedPackets := by
  unfold processArrivalCore
  split
  · rfl
  · split
    · split <;> rfl
    · rfl

-- Every branch of the sequence validator stores the arrival time.
theorem processArrivalCore_lastPacketMs (s : RxState) (c n : Nat) :
    (processArrivalCore s c n).lastPacketMs = n := by
  unfold processArrivalCore
  split
  · rfl
  · split
    · split <;> rfl
    · rfl

-- After any processed arrival the receiver is synced.
theorem processArrivalCore_isSynced (s : RxState) (c n : Nat) :
    (processArrivalCore s c n).isSynced = true := by
  unfold processArrivalCore
  split
  · rfl
  · rename_i h
    have hs : s.isSynced = true := by
      rcases not_or.mp h with ⟨h1, _⟩
      revert h1
      cases s.isSynced <;> simp
    split
    · split <;> exact hs
    · exact hs

-- The raw record bytes are two bytes per field.
theorem recordBytes_length (l : List Int) : (recordBytes l).length = 2 * l.length := by
  induction l with
  | nil => rfl
  | cons v rest ih =>
      simp only [recordBytes, int16Bytes, List.length_append, List.length_cons, ih,
        List.length_nil]
      omega

-- Neither debounce step touches the transmission bookkeeping.
theorem debounceInit_packetNumber (s : SenderState) (level : Bool) :
    (debounceInit s level).packetNumber = s.packetNumber := by
  unfold debounceInit
  split <;> rfl

theorem debounceTip_packetNumber (s : SenderState) (level : Bool) :
    (debounceTip s level).packetNumber = s.packetNumber := by
  unfold debounceTip
  split <;> rfl

-- Clearing the rain accumulator touches neither statistics counter nor the
-- sequence counter.
theorem clearRainIfPending_counters (s : SenderState) :
    (clearRainIfPending s).successfulTransmissions = s.successfulTransmissions ∧
    (clearRainIfPending s).failedTransmissions = s.failedTransmissions ∧
    (clearRainIfPending s).packetNumber = s.packetNumber := by
  unfold clearRainIfPending
  split <;> exact ⟨rfl, rfl, rfl⟩

-- On a state satisfying the pending/empty invariant, clearing empties the
-- accumulator.
theorem clearRainIfPending_clears (s : SenderState)
    (h : s.rain_data_pending = false → s.accumulated_rain_tips = 0) :
    (clearRainIfPending s).accumulated_rain_tips = 0 := by
  unfold clearRainIfPending
  cases hp : s.rain_data_pending
  · rw [if_neg Bool.false_ne_true]
    exact h hp
  · rw [if_pos rfl]

-- Seeding `lastState` does not touch the rain accumulator.
theorem debounceInit_rain (s : SenderState) (level : Bool) :
    (debounceInit s level).rain_data_pending = s.rain_data_pending ∧
    (debounceInit s level).accumulated_rain_tips = s.accumulated_rain_tips := by
  unfold debounceInit
  split <;> exact ⟨rfl, rfl⟩

-- An accepted edge keeps the pending/empty invariant.
theorem debounceTip_rain (t : SenderState) (level : Bool)
    (hP : t.rain_data_pending = false → t.accumulated_rain_tips = 0) :
    (debounceTip t level).rain_data_pending = false →
    (debounceTip t level).accumulated_rain_tips = 0 := by
  unfold debounceTip
  split
  · intro h
    exact absurd h (by simp)
  · exact hP

-- The pending/empty invariant (`rain_data_pending = false` implies an empty
-- accumulator) holds initially and is preserved by both sender operations,
-- so it holds in every reachable sender state.
theorem rainInvariant_preserved :
    (∀ (s : SenderState) (level : Bool) (nowMs : Nat),
      (s.rain_data_pending = false → s.accumulated_rain_tips = 0) →
      ((readRainReedData s level nowMs).rain_data_pending = false →
        (readRainReedData s level nowMs).accumulated_rain_tips = 0)) ∧
    (∀ (s : SenderState) (ra ok : Bool),
      (s.rain_data_pending = false → s.accumulated_rain_tips = 0) →
      ((transmitData s ra ok).rain_data_pending = false →
        (transmitData s ra ok).accumulated_rain_tips = 0)) := by
  constructor
  · intro s level nowMs hP
    have hP0 : (debounceInit s level).rain_data_pending = false →
        (debounceInit s level).accumulated_rain_tips = 0 := by
      obtain ⟨h1, h2⟩ := debounceInit_rain s level
      rw [h1, h2]
      exact hP
    unfold readRainReedData
    split
    · split
      · show (debounceTip (debounceInit s level) level).rain_data_pending = false →
          (debounceTip (debounceInit s level) level).accumulated_rain_tips = 0
        exact debounceTip_rain (debounceInit s level) level hP0
      · exact hP0
    · exact hP0
  · intro s ra ok hP
    cases ra
    · exact hP
    · cases ok
      · exact fun h => hP h
      · intro _
        exact clearRainIfPending_clears
          { s with successfulTransmissions := u16 (s.successfulTransmissions + 1) }
          (fun h => hP h)

-- Signed 16-bit reinterpretation always lands in the int16 range.
theorem wrap16_bounds (n : Int) : -32768 ≤ wrap16 n ∧ wrap16 n ≤ 32767 := by
  unfold wrap16
  have h1 : 0 ≤ n % 65536 := Int.emod_nonneg n (by norm_num)
  have h2 : n % 65536 < 65536 := Int.emod_lt_of_pos n (by norm_num)
  split <;> omega

/-! ## Claim theorems -/

/-- C1: In the SYNCED state, for every out-of-sequence arrival (sequence field
not equal to previous+1 mod 65536): if the arriving sequence number is ≤ 5 it
is adopted as the new baseline with zero loss counted (sender-restart case);
otherwise `(arriving − (previous+1)) mod 65536` is added to the cumulative
loss counter and the arriving value is adopted as the new baseline. In
particular, N followed by N+50 (with N+50 > 5) adds exactly 49 to the loss
counter. -/
theorem c1_synced_out_of_sequence :
    (∀ (s : RxState) (current nowMs : Nat),
      s.isSynced = true →
      sub32 nowMs s.lastPacketMs ≤ 5000 →
      current ≠ u16 (s.lastPacketNumber + 1) →
      ((current ≤ 5 →
          (processArrival s current nowMs).lostPackets = s.lostPackets ∧
          (processArrival s current nowMs).lastPacketNumber = current) ∧
       (5 < current →
          (processArrival s current nowMs).lostPackets =
            u16 (s.lostPackets + u16 (current + 65536 - u16 (s.lastPacketNumber + 1))) ∧
          (processArrival s current nowMs).lastPacketNumber = current))) ∧
    (∀ N lost : Nat,
      5 < u16 (N + 50) →
      (processArrival ⟨true, N, 0, 0, lost⟩ (u16 (N + 50)) 0).lostPackets = u16 (lost + 49)) := by
  constructor
  · intro s current nowMs hs hg hne
    constructor
    · intro h5
      have hc := processArrivalCore_reset s current nowMs hs hg hne h5
      obtain ⟨-, h2, -, h4, -⟩ := processArrival_fields s current nowMs
      rw [h4, h2, hc]
      exact ⟨rfl, rfl⟩
    · intro h5
      have hc := processArrivalCore_loss s current nowMs hs hg hne (by omega)
      obtain ⟨-, h2, -, h4, -⟩ := processArrival_fields s current nowMs
      rw [h4, h2, hc]
      exact ⟨rfl, rfl⟩
  · intro N lost h5
    have hne : u16 (N + 50) ≠ u16 (N + 1) := by
      unfold u16
      omega
    have hg : sub32 0 (0 : Nat) ≤ 5000 := by decide
    have hc := processArrivalCore_loss ⟨true, N, 0, 0, lost⟩ (u16 (N + 50)) 0 rfl hg hne (by omega)
    obtain ⟨-, -, -, h4, -⟩ := processArrival_fields ⟨true, N, 0, 0, lost⟩ (u16 (N + 50)) 0
    rw [h4, hc]
    have hdiff : u16 (u16 (N + 50) + 65536 - u16 (N + 1)) = 49 := by
      unfold u16
      omega
    rw [hdiff]

/-- C1 witness: with baseline 100 and arrival 150 the loss counter grows by the
computed gap, and with baseline 200 and arrival 250 it grows by exactly 49. -/
theorem c1_witness :
    ((processArrival ⟨true, 100, 0, 0, 7⟩ 150 0).lostPackets =
        u16 (7 + u16 (150 + 65536 - u16 (100 + 1))) ∧
      (processArrival ⟨true, 100, 0, 0, 7⟩ 150 0).lastPacketNumber = 150) ∧
    (processArrival ⟨true, 200, 0, 0, 3⟩ (u16 (200 + 50)) 0).lostPackets = u16 (3 + 49) :=
  ⟨(c1_synced_out_of_sequence.1 ⟨true, 100, 0, 0, 7⟩ 150 0 rfl (by decide) (by decide)).2
      (by decide),
   c1_synced_out_of_sequence.2 200 3 (by decide)⟩

/-- C6: In the SYNCED state, every arrival whose sequence field equals
previous + 1 mod 65536 — including sequence 0 arriving after sequence 65535 —
advances the baseline and adds zero to the loss counter. -/
theorem c6_in_sequence_no_loss :
    (∀ (s : RxState) (current nowMs : Nat),
      s.isSynced = true →
      sub32 nowMs s.lastPacketMs ≤ 5000 →
      current = u16 (s.lastPacketNumber + 1) →
      (processArrival s current nowMs).lastPacketNumber = current ∧
      (processArrival s current nowMs).lostPackets = s.lostPackets ∧
      (processArrival s current nowMs).isSynced = true) ∧
    ((processArrival ⟨true, 65535, 0, 41, 7⟩ 0 1000).lastPacketNumber = 0 ∧
     (processArrival ⟨true, 65535, 0, 41, 7⟩ 0 1000).lostPackets = 7) := by
  constructor
  · intro s current nowMs hs hg hnext
    have hc := processArrivalCore_inorder s current nowMs hs hg hnext
    obtain ⟨h1, h2, -, h4, -⟩ := processArrival_fields s current nowMs
    rw [h1, h2, h4, hc]
    exact ⟨rfl, rfl, hs⟩
  · exact ⟨by decide, by decide⟩

/-- C6 witness: a synced receiver at baseline 4 accepting arrival 5 advances
the baseline without counting loss. -/
theorem c6_witness :
    (processArrival ⟨true, 4, 0, 9, 2⟩ 5 100).lastPacketNumber = 5 ∧
    (processArrival ⟨true, 4, 0, 9, 2⟩ 5 100).lostPackets = 2 ∧
    (processArrival ⟨true, 4, 0, 9, 2⟩ 5 100).isSynced = true :=
  c6_in_sequence_no_loss.1 ⟨true, 4, 0, 9, 2⟩ 5 100 rfl (by decide) (by decide)

/-- C7: On the first arrival ever, and on any arrival whose gap since the
previous arrival exceeds 5000 ms, the receiver adopts the arriving sequence
number as the new baseline unconditionally and counts zero loss, regardless
of the sequence value. -/
theorem c7_resync_adopts_baseline (s : RxState) (current nowMs : Nat)
    (h : s.isSynced = false ∨ sub32 nowMs s.lastPacketMs > 5000) :
    (processArrival s current nowMs).lastPacketNumber = current ∧
    (processArrival s current nowMs).lostPackets = s.lostPackets ∧
    (processArrival s current nowMs).isSynced = true ∧
    (processArrival s current nowMs).lastPacketMs = nowMs := by
  have hc := processArrivalCore_resync s current nowMs h
  obtain ⟨h1, h2, h3, h4, -⟩ := processArrival_fields s current nowMs
  rw [h1, h2, h3, h4, hc]
  exact ⟨rfl, rfl, rfl, rfl⟩

/-- C7 witness: an unsynced receiver adopts arrival 60000 with zero loss, and
a synced receiver after a 6000 ms idle gap adopts arrival 42 with zero loss. -/
theorem c7_witness :
    ((processArrival ⟨false, 0, 0, 0, 0⟩ 60000 3).lastPacketNumber = 60000 ∧
      (processArrival ⟨false, 0, 0, 0, 0⟩ 60000 3).lostPackets = 0 ∧
      (processArrival ⟨false, 0, 0, 0, 0⟩ 60000 3).isSynced = true ∧
      (processArrival ⟨false, 0, 0, 0, 0⟩ 60000 3).lastPacketMs = 3) ∧
    ((processArrival ⟨true, 17, 1000, 5, 9⟩ 42 7001).lastPacketNumber = 42 ∧
      (processArrival ⟨true, 17, 1000, 5, 9⟩ 42 7001).lostPackets = 9 ∧
      (processArrival ⟨true, 17, 1000, 5, 9⟩ 42 7001).isSynced = true ∧
      (processArrival ⟨true, 17, 1000, 5, 9⟩ 42 7001).lastPacketMs = 7001) :=
  ⟨c7_resync_adopts_baseline ⟨false, 0, 0, 0, 0⟩ 60000 3 (Or.inl rfl),
   c7_resync_adopts_baseline ⟨true, 17, 1000, 5, 9⟩ 42 7001 (Or.inr (by decide))⟩

/-- C8: For every arriving record, regardless of which sync/loss branch it
takes, the receiver forwards it downstream as the frame `'D'` followed by the
32 raw record bytes followed by `'E'`, increments `receivedPackets`
(`receivedCount`), and updates `lastPacketMs` (`lastArrivalTime`); no arrival
is ever dropped or blocks continued operation (the frame is emitted for every
state and every record). -/
theorem c8_every_arrival_forwarded (s : RxState) (record : List Int) (nowMs : Nat)
    (hlen : record.length = 16) :
    (receiveTick s (some (record, nowMs))).2.1 = 68 :: (recordBytes record ++ [69]) ∧
    ((receiveTick s (some (record, nowMs))).2.1).length = 34 ∧
    (receiveTick s (some (record, nowMs))).1.receivedPackets = u16 (s.receivedPackets + 1) ∧
    (receiveTick s (some (record, nowMs))).1.lastPacketMs = nowMs := by
  refine ⟨rfl, ?_, ?_, ?_⟩
  · show (frameOutput record).length = 34
    simp only [frameOutput, List.length_cons, List.length_append, recordBytes_length, hlen,
      List.length_nil]
  · show (processArrival s (int16ToU16 (record.getD 7 0)) nowMs).receivedPackets =
      u16 (s.receivedPackets + 1)
    obtain ⟨-, -, -, -, h5⟩ := processArrival_fields s (int16ToU16 (record.getD 7 0)) nowMs
    rw [h5, processArrivalCore_receivedPackets]
  · show (processArrival s (int16ToU16 (record.getD 7 0)) nowMs).lastPacketMs = nowMs
    obtain ⟨-, -, h3, -, -⟩ := processArrival_fields s (int16ToU16 (record.getD 7 0)) nowMs
    rw [h3, processArrivalCore_lastPacketMs]

/-- C8 witness: an all-zero 16-field record arriving at an unsynced receiver
is framed as `'D'`, 32 zero bytes, `'E'`, with the arrival counted. -/
theorem c8_witness :
    (receiveTick ⟨false, 0, 0, 0, 0⟩ (some (List.replicate 16 0, 5))).2.1 =
      68 :: (recordBytes (List.replicate 16 0) ++ [69]) ∧
    ((receiveTick ⟨false, 0, 0, 0, 0⟩ (some (List.replicate 16 0, 5))).2.1).length = 34 ∧
    (receiveTick ⟨false, 0, 0, 0, 0⟩ (some (List.replicate 16 0, 5))).1.receivedPackets =
      u16 (0 + 1) ∧
    (receiveTick ⟨false, 0, 0, 0, 0⟩ (some (List.replicate 16 0, 5))).1.lastPacketMs = 5 :=
  c8_every_arrival_forwarded ⟨false, 0, 0, 0, 0⟩ (List.replicate 16 0) 5 (by decide)

/-- C9 (code evaluated at the failing input): the statistics check of the
receiver `loop` runs on every iteration, outside the `radio.available()`
block. With `receivedPackets = 100`, an iteration with no arrival emits the
loss-rate statistic, leaves the state unchanged, and the next idle iteration
emits it again — so the statistic is not emitted exactly once per 100
received records. -/
theorem c9_stats_repeat_without_new_records :
    (receiveTick ⟨true, 7, 0, 100, 3⟩ none).2.2 = true ∧
    (receiveTick ⟨true, 7, 0, 100, 3⟩ none).1 = ⟨true, 7, 0, 100, 3⟩ ∧
    (receiveTick (receiveTick ⟨true, 7, 0, 100, 3⟩ none).1 none).2.2 = true := by
  decide

/-- C10: Once the receiver has entered the SYNCED state it never returns to
UNSYNCED — after any processed arrival `isSynced` is true, an iteration with
no arrival changes nothing, and an idle gap longer than 5000 ms re-baselines
the sequence number while the state remains SYNCED. -/
theorem c10_synced_is_permanent :
    (∀ (s : RxState) (current nowMs : Nat),
        (processArrival s current nowMs).isSynced = true) ∧
    (∀ s : RxState, receiveTick s none = (s, [], statsDue s)) ∧
    (∀ (s : RxState) (current nowMs : Nat),
        s.isSynced = true →
        sub32 nowMs s.lastPacketMs > 5000 →
        (processArrival s current nowMs).isSynced = true ∧
        (processArrival s current nowMs).lastPacketNumber = current) := by
  refine ⟨?_, fun s => rfl, ?_⟩
  · intro s current nowMs
    obtain ⟨h1, -, -, -, -⟩ := processArrival_fields s current nowMs
    rw [h1, processArrivalCore_isSynced]
  · intro s current nowMs hs hg
    obtain ⟨h1, h2, -, -, -⟩ := processArrival_fields s current nowMs
    rw [h1, h2, processArrivalCore_resync s current nowMs (Or.inr hg)]
    exact ⟨rfl, rfl⟩

/-- C10 witness: a synced receiver hit by an arrival after a 6000 ms idle gap
stays synced and re-baselines to the arriving sequence number. -/
theorem c10_witness :
    (processArrival ⟨true, 30000, 0, 12, 4⟩ 777 6000).isSynced = true ∧
    (processArrival ⟨true, 30000, 0, 12, 4⟩ 777 6000).lastPacketNumber = 777 :=
  c10_synced_is_permanent.2.2 ⟨true, 30000, 0, 12, 4⟩ 777 6000 rfl (by decide)

/-- C2: After every transmission attempt, whether the radio send returns
success or failure, the sender's sequence counter `packetNumber` is
incremented exactly once, as an unsigned 16-bit counter wrapping from 65535
to 0; the other per-cycle state operation (the rain reed sampling) never
modifies it, and without a transmission attempt (radio unavailable) it is
unchanged. -/
theorem c2_sequence_counter_per_attempt :
    (∀ (s : SenderState) (ok : Bool),
        (transmitData s true ok).packetNumber = u16 (s.packetNumber + 1)) ∧
    (∀ (s : SenderState) (ok : Bool),
        (transmitData s false ok).packetNumber = s.packetNumber) ∧
    (∀ (s : SenderState) (level : Bool) (nowMs : Nat),
        (readRainReedData s level nowMs).packetNumber = s.packetNumber) ∧
    ((transmitData ⟨false, false, 0, 0, false, 65535, 0, 0⟩ true true).packetNumber = 0 ∧
     (transmitData ⟨false, false, 0, 0, false, 65535, 0, 0⟩ true false).packetNumber = 0) := by
  refine ⟨?_, ?_, ?_, by decide, by decide⟩
  · intro s ok
    cases ok <;> rfl
  · intro s ok
    rfl
  · intro s level nowMs
    unfold readRainReedData
    split
    · split
      · show (debounceTip (debounceInit s level) level).packetNumber = s.packetNumber
        rw [debounceTip_packetNumber, debounceInit_packetNumber]
      · exact debounceInit_packetNumber s level
    · exact debounceInit_packetNumber s level

/-- C3: For every transmission attempt: on success the rain-tip accumulator
is cleared (given the reachable-state invariant that a clear pending flag
means an empty accumulator) and the success counter is incremented; on
failure the rain-tip accumulator and pending flag are left unchanged and the
failure counter is incremented. Consequently, in the concrete two-cycle
scenario, a failed transmission followed by a successful one delivers the sum
of the tips accumulated across both cycles (the backlog tip from the failed
cycle), and only then clears the accumulator. -/
theorem c3_rain_accumulator_across_attempts :
    (∀ s : SenderState,
        (s.rain_data_pending = false → s.accumulated_rain_tips = 0) →
        (transmitData s true true).accumulated_rain_tips = 0 ∧
        (transmitData s true true).successfulTransmissions =
          u16 (s.successfulTransmissions + 1)) ∧
    (∀ s : SenderState,
        (transmitData s true false).accumulated_rain_tips = s.accumulated_rain_tips ∧
        (transmitData s true false).rain_data_pending = s.rain_data_pending ∧
        (transmitData s true false).failedTransmissions = u16 (s.failedTransmissions + 1)) ∧
    ((senderCycle ⟨false, false, 0, 0, false, 0, 0, 0⟩ true 300 false).2 = 1 ∧
     (senderCycle ⟨false, false, 0, 0, false, 0, 0, 0⟩ true 300 false).1.accumulated_rain_tips
        = 1 ∧
     (senderCycle (senderCycle ⟨false, false, 0, 0, false, 0, 0, 0⟩ true 300 false).1
        false 600 true).2 = 1 ∧
     (senderCycle (senderCycle ⟨false, false, 0, 0, false, 0, 0, 0⟩ true 300 false).1
        false 600 true).1.accumulated_rain_tips = 0) := by
  refine ⟨?_, ?_, by decide, by decide, by decide, by decide⟩
  · intro s hinv
    constructor
    · exact clearRainIfPending_clears
        { s with successfulTransmissions := u16 (s.successfulTransmissions + 1) }
        (fun h => hinv h)
    · exact (clearRainIfPending_counters
        { s with successfulTransmissions := u16 (s.successfulTransmissions + 1) }).1
  · intro s
    exact ⟨rfl, rfl, rfl⟩

/-- C3 witness: with a pending accumulator of 5 tips, a successful attempt
clears the accumulator and bumps the success counter. -/
theorem c3_witness :
    (transmitData ⟨false, false, 0, 5, true, 0, 0, 0⟩ true true).accumulated_rain_tips = 0 ∧
    (transmitData ⟨false, false, 0, 5, true, 0, 0, 0⟩ true true).successfulTransmissions =
      u16 (0 + 1) :=
  c3_rain_accumulator_across_attempts.1 ⟨false, false, 0, 5, true, 0, 0, 0⟩ (by decide)

/-- C5 counterexample: the claim asserts that on a tick whose read level
differs from `lastState` but falls inside the 250 ms debounce window,
`lastState` is still updated to the read level. In the code the update
`lastState = currentState` sits inside the `> 250ms` branch, so nothing is
updated: from `lastState = LOW` (`false`), `lastChanged = 0`, a `HIGH` read at
`millis() = 100` leaves `lastState` at `LOW`, not the read level `HIGH`. -/
theorem c5_counterexample :
    ¬((readRainReedData ⟨false, false, 0, 0, false, 0, 0, 0⟩ true 100).lastState = true) := by
  decide

/-- C5 (amended): on a sampling tick whose read level differs from `lastState`
but where `now − lastChanged` is within the 250 ms debounce window, the edge
is ignored entirely — no event is counted and the whole debounce state,
`lastState` and `lastChanged` included, is left unchanged (`lastState` is NOT
updated to the read level). Two rising edges 200 ms apart (with the bounce
inside the window) register as one logical event; two rising edges whose
transitions all fall outside the window register as two. -/
theorem c5_debounce_window_ignores_edge :
    (∀ (s : SenderState) (level : Bool) (nowMs : Nat),
        s.firstLoop = false →
        level ≠ s.lastState →
        sub32 nowMs s.lastChanged ≤ 250 →
        readRainReedData s level nowMs = s) ∧
    ((readRainReedData (readRainReedData (readRainReedData
        ⟨false, false, 0, 0, false, 0, 0, 0⟩ true 300) false 400) true 500).accumulated_rain_tips
      = 1) ∧
    ((readRainReedData (readRainReedData (readRainReedData
        ⟨false, false, 0, 0, false, 0, 0, 0⟩ true 300) false 600) true 900).accumulated_rain_tips
      = 2) := by
  refine ⟨?_, by decide, by decide⟩
  intro s level nowMs hfl hne hwin
  have hinit : debounceInit s level = s := by
    unfold debounceInit
    rw [hfl]
    rfl
  unfold readRainReedData
  rw [hinit, if_pos hne, if_neg (by omega)]

/-- C5 witness: a `HIGH` read 100 ms after the last accepted change leaves the
entire sender state untouched. -/
theorem c5_witness :
    readRainReedData ⟨false, false, 0, 3, true, 9, 2, 1⟩ true 100 =
      ⟨false, false, 0, 3, true, 9, 2, 1⟩ :=
  c5_debounce_window_ignores_edge.1 ⟨false, false, 0, 3, true, 9, 2, 1⟩ true 100 rfl
    (by decide) (by decide)

/-! ## C4: record encoding -/

/-- A readings snapshot with only the light sensor available and a raw lux
value of 40000; every other sensor is unavailable and every counter zero. -/
def luxReadings : Readings :=
  ⟨0, false, 0, 0, 0, false, 0, 0, true, 40000, false, 0, 0, 0, 0, 0, 0, false, 0⟩

/-- C4 counterexample: the claim asserts every field equals
`round(value × scale)` clamped to `[-32768, 32767]`, with illuminance clamped
to the maximum representable value (32767). For a raw lux of 40000 the code
computes `(int16_t)min(40000, 65535UL)`, which reinterprets 40000 modulo 2^16
as the negative field value −25536 instead of the clamped 32767 the claim
requires. -/
theorem c4_counterexample :
    (encodeRecord luxReadings).getD 4 0 = -25536 ∧
    specEncodeLux 40000 = 32767 ∧
    (encodeRecord luxReadings).getD 4 0 ≠ specEncodeLux 40000 := by
  decide

/-- C4 (amended): for every snapshot of readings the encoder produces a record
of exactly 16 fields, and every field lies within the signed-16-bit range
[-32768, 32767]; but the fields are obtained by C-cast truncation toward zero
of `value × scale` and reduction modulo 2^16 into the signed range — not by
rounding and clamping — and the illuminance field is `min(lux, 65535)` reduced
modulo 2^16, so lux values in [32768, 65535] encode as the negative value
`lux − 65536` rather than clamping to 32767. -/
theorem c4_record_16_fields_in_int16_range :
    (∀ r : Readings, (encodeRecord r).length = 16) ∧
    (∀ (r : Readings) (x : Int), x ∈ encodeRecord r → -32768 ≤ x ∧ x ≤ 32767) ∧
    (∀ lux : Nat, 32768 ≤ lux → lux ≤ 65535 →
        (encodeRecord { luxReadings with lux_raw := lux }).getD 4 0 = (lux : Int) - 65536) := by
  refine ⟨fun r => rfl, ?_, ?_⟩
  · intro r x hx
    simp only [encodeRecord, List.mem_cons, List.not_mem_nil, or_false] at hx
    rcases hx with rfl | rfl | rfl | rfl | rfl | rfl | rfl | rfl | rfl | rfl | rfl | rfl |
      rfl | rfl | rfl | rfl <;>
      first
        | exact wrap16_bounds _
        | (split <;> first | exact wrap16_bounds _ | norm_num)
        | norm_num
  · intro lux h1 h2
    show wrap16 (Int.ofNat (min lux 65535)) = (lux : Int) - 65536
    rw [min_eq_left h2]
    unfold wrap16
    rw [Int.ofNat_eq_natCast]
    have hmod : (lux : Int) % 65536 = (lux : Int) :=
      Int.emod_eq_of_lt (Int.natCast_nonneg lux)
        (by exact_mod_cast Nat.lt_succ_of_le h2)
    rw [hmod, if_pos (by exact_mod_cast h1)]

/-- C4 (amended) witness: in the all-default snapshot with lux 40000 the
reserved field 0 is in range, and the illuminance field wraps to
40000 − 65536. -/
theorem c4_record_witness :
    ((-32768 : Int) ≤ 0 ∧ (0 : Int) ≤ 32767) ∧
    (encodeRecord { luxReadings with lux_raw := 40000 }).getD 4 0 = ((40000 : Nat) : Int) - 65536 :=
  ⟨c4_record_16_fields_in_int16_range.2.1 luxReadings 0 (by decide),
   c4_record_16_fields_in_int16_range.2.2 40000 (by decide) (by decide)⟩

end WeatherStation
